import Mathlib

/-!
Verification of the theme controller in `theme.js` (html-tools repository).

The script is a browser IIFE managing a dark/light display theme.  We give a
shallow embedding: the mutable environment it touches (the `dark-mode` class on
`document.body`, the toggle icon's text content, the `localStorage` entry under
key `theme`, the optional `window.onThemeChange` callback) is a Lean structure,
and each function of the script becomes a state-transforming Lean function.
An ordered effect trace records the primitive DOM/store/callback operations so
that ordering claims can be stated.  JavaScript truthiness of
`localStorage.getItem('theme')` (null or the empty string are falsy) is modelled
explicitly.
-/

namespace ThemeJs

/-- A primitive observable effect performed by the script, in program order. -/
inductive Effect where
  | classAdd (c : String)
  | classRemove (c : String)
  | iconSet (t : String)
  | storeSet (key val : String)
  | cbInvoke (arg : String)
deriving DecidableEq, Repr

/-- The environment state the script reads and mutates:
`darkMode` is whether `document.body.classList` contains `dark-mode`;
`icon` is `themeIcon.textContent`; `stored` is `localStorage.getItem('theme')`
(`none` = entry absent); `cbDefined` is whether `window.onThemeChange` is a
function; `cbCalls` collects the arguments of calls to it; `log` is the
ordered trace of primitive effects performed so far. -/
structure ThemeState where
  darkMode : Bool
  icon : String
  stored : Option String
  cbDefined : Bool
  cbCalls : List String
  log : List Effect
deriving DecidableEq, Repr

/-- JS truthiness of the value returned by `localStorage.getItem`:
`null` and the empty string are falsy, every other string is truthy. -/
def truthyItem : Option String → Bool
  | none => false
  | some s => s != ""

/-- `getPreferredTheme` from theme.js: returns the saved theme when the stored
item is truthy, otherwise `'dark'` or `'light'` from the
`(prefers-color-scheme: dark)` media query result `sysDark`. -/
def getPreferredTheme (stored : Option String) (sysDark : Bool) : String :=
  if truthyItem stored then stored.getD ""
  else if sysDark then "dark" else "light"

/-- `setTheme` from theme.js: if the argument equals `'dark'`, add the
`dark-mode` class and set the icon to the sun glyph, else remove the class and
set the moon glyph; then write the argument to `localStorage` under `theme`;
then, if `window.onThemeChange` is a function, call it with the argument. -/
def setTheme (theme : String) (s : ThemeState) : ThemeState :=
  let s1 :=
    if theme = "dark" then
      { s with darkMode := true, icon := "☀️",
               log := s.log ++ [Effect.classAdd "dark-mode", Effect.iconSet "☀️"] }
    else
      { s with darkMode := false, icon := "🌙",
               log := s.log ++ [Effect.classRemove "dark-mode", Effect.iconSet "🌙"] }
  let s2 := { s1 with stored := some theme,
                      log := s1.log ++ [Effect.storeSet "theme" theme] }
  if s2.cbDefined then
    { s2 with cbCalls := s2.cbCalls ++ [theme],
              log := s2.log ++ [Effect.cbInvoke theme] }
  else s2

/-- `toggleTheme` from theme.js: read the current theme from the presence of
the `dark-mode` class, compute the complement, apply it via `setTheme`. -/
def toggleTheme (s : ThemeState) : ThemeState :=
  let currentTheme := if s.darkMode then "dark" else "light"
  let newTheme := if currentTheme = "dark" then "light" else "dark"
  setTheme newTheme s

/-- `window.themeManager.getTheme` from theme.js: `'dark'` when the body has
the `dark-mode` class, `'light'` otherwise. -/
def getTheme (s : ThemeState) : String :=
  if s.darkMode then "dark" else "light"

/-- The media-query `change` listener from theme.js: if the stored `theme`
item is falsy (absent or empty), apply `'dark'`/`'light'` according to
`e.matches`; otherwise do nothing. -/
def mediaChange (em : Bool) (s : ThemeState) : ThemeState :=
  if !(truthyItem s.stored) then
    setTheme (if em then "dark" else "light") s
  else s

/-- The initialization line of the IIFE: `setTheme(getPreferredTheme())`,
with `sysDark` the current media-query result. -/
def initTheme (sysDark : Bool) (s : ThemeState) : ThemeState :=
  setTheme (getPreferredTheme s.stored sysDark) s

/-- Page-level state around the theme state: presence of the two required DOM
elements, the console-warning log, whether each listener was registered, and
whether `window.themeManager` was assigned. -/
structure PageState where
  hasToggle : Bool
  hasIcon : Bool
  theme : ThemeState
  warnings : List String
  clickListenerRegistered : Bool
  mediaListenerRegistered : Bool
  themeManagerExposed : Bool
deriving DecidableEq, Repr

/-- The IIFE body from theme.js: look up the toggle element, then the icon
inside it (found only if the toggle itself is found); if either is missing,
emit a console warning and return; otherwise initialize the theme, register
the click and media-change listeners, and expose `window.themeManager`. -/
def iife (sysDark : Bool) (p : PageState) : PageState :=
  let themeToggleFound := p.hasToggle
  let themeIconFound := themeToggleFound && p.hasIcon
  if !themeToggleFound || !themeIconFound then
    { p with warnings := p.warnings ++
        ["Theme toggle button or icon not found. Make sure to include the required HTML elements."] }
  else
    { p with theme := initTheme sysDark p.theme,
             clickListenerRegistered := true,
             mediaListenerRegistered := true,
             themeManagerExposed := true }

/-- A page state before the script runs: no `dark-mode` class, the moon glyph
hard-coded in the HTML, no stored preference, no callback installed. -/
def freshTheme : ThemeState :=
  { darkMode := false, icon := "🌙", stored := none,
    cbDefined := false, cbCalls := [], log := [] }

/-- Events the environment can deliver to the initialized controller:
a click on the toggle button, a media-query change notification, or an
external call to `window.themeManager.setTheme`. -/
inductive Ev where
  | click
  | media (em : Bool)
  | external (t : String)
deriving DecidableEq, Repr

/-- Dispatch one event to its handler. -/
def step (e : Ev) (s : ThemeState) : ThemeState :=
  match e with
  | Ev.click => toggleTheme s
  | Ev.media m => mediaChange m s
  | Ev.external t => setTheme t s

/-- Run a sequence of events. -/
def run : List Ev → ThemeState → ThemeState
  | [], s => s
  | e :: evs, s => run evs (step e s)

/-- Events generated by the controller's own listeners (no external
`themeManager.setTheme` call). -/
def internalEv : Ev → Bool
  | Ev.click => true
  | Ev.media _ => true
  | Ev.external _ => false

/-! ### Field-level characterization of `setTheme` -/

theorem setTheme_stored (t : String) (s : ThemeState) :
    (setTheme t s).stored = some t := by
  simp only [setTheme]
  split <;> split <;> rfl

theorem setTheme_darkMode (t : String) (s : ThemeState) :
    (setTheme t s).darkMode = decide (t = "dark") := by
  simp only [setTheme]
  split <;> rename_i h <;> split <;> simp [h]

theorem setTheme_icon (t : String) (s : ThemeState) :
    (setTheme t s).icon = (if t = "dark" then "☀️" else "🌙") := by
  simp only [setTheme]
  split <;> rename_i h <;> split <;> simp [h]

theorem setTheme_cbDefined (t : String) (s : ThemeState) :
    (setTheme t s).cbDefined = s.cbDefined := by
  simp only [setTheme]
  split <;> split <;> rfl

theorem setTheme_cbCalls (t : String) (s : ThemeState) :
    (setTheme t s).cbCalls = s.cbCalls ++ (if s.cbDefined then [t] else []) := by
  simp only [setTheme]
  split <;> split <;> rename_i h2 <;> simp_all

theorem setTheme_log (t : String) (s : ThemeState) :
    (setTheme t s).log = s.log ++
      [if t = "dark" then Effect.classAdd "dark-mode" else Effect.classRemove "dark-mode",
       Effect.iconSet (if t = "dark" then "☀️" else "🌙"),
       Effect.storeSet "theme" t] ++
      (if s.cbDefined then [Effect.cbInvoke t] else []) := by
  simp only [setTheme]
  split <;> rename_i h <;> split <;> rename_i h2 <;> simp_all

/-! ### Behaviour of the other operations -/

theorem toggleTheme_eq (s : ThemeState) :
    toggleTheme s = setTheme (if s.darkMode then "light" else "dark") s := by
  simp only [toggleTheme]
  cases s.darkMode <;> simp

theorem mediaChange_of_truthy (em : Bool) (s : ThemeState)
    (h : truthyItem s.stored = true) : mediaChange em s = s := by
  simp [mediaChange, h]

theorem toggleTheme_stored_truthy (s : ThemeState) :
    truthyItem (toggleTheme s).stored = true := by
  rw [toggleTheme_eq, setTheme_stored]
  cases s.darkMode <;> simp [truthyItem]

theorem run_internal_truthy (evs : List Ev) (s : ThemeState)
    (h : truthyItem s.stored = true)
    (hint : ∀ e ∈ evs, internalEv e = true) :
    truthyItem (run evs s).stored = true := by
  induction evs generalizing s with
  | nil => exact h
  | cons e evs ih =>
      cases e with
      | click =>
          rw [run, step]
          exact ih (toggleTheme s) (toggleTheme_stored_truthy s)
            (fun e he => hint e (List.mem_cons_of_mem _ he))
      | media m =>
          rw [run, step, mediaChange_of_truthy m s h]
          exact ih s h (fun e he => hint e (List.mem_cons_of_mem _ he))
      | external t =>
          exact absurd (hint (Ev.external t) (List.mem_cons_self _ _)) (by simp [internalEv])

/-! ### Claims -/

/-- C1: the claim says the persisted `theme` entry stays absent until the first
manual toggle, with neither initialization nor the system-preference-change
handler creating it.  The code does the opposite: `initTheme` (the IIFE line
`setTheme(getPreferredTheme())`) and the media-change handler both call
`setTheme`, which always executes `localStorage.setItem('theme', theme)`.
Starting from the fresh page state with the entry absent, initialization alone
creates it (with `"light"` or `"dark"` depending on the system signal), and so
does the change handler. -/
theorem c1_init_creates_stored_entry :
    freshTheme.stored = none ∧
    (initTheme false freshTheme).stored = some "light" ∧
    (initTheme true freshTheme).stored = some "dark" ∧
    (mediaChange true freshTheme).stored = some "dark" := by
  refine ⟨rfl, ?_, ?_, ?_⟩ <;>
    simp [initTheme, mediaChange, getPreferredTheme, truthyItem, setTheme_stored, freshTheme]

/-- C2: for a Theme value `t` (light or dark), `setTheme t` appends to the
effect trace exactly, in order: (a) add the `dark-mode` class when `t = dark`,
remove it otherwise; (b) set the icon to the sun glyph for dark, the moon for
light; (c) write `t` to the `theme` store entry; (d) invoke the host callback
with `t` exactly when it is defined.  Afterwards the dark-mode marker is set
iff `t = dark`, the persisted value is `t`, and `themeManager.getTheme`
returns `t`. -/
theorem c2_applyTheme_effects (t : String) (s : ThemeState)
    (ht : t = "light" ∨ t = "dark") :
    ((setTheme t s).darkMode = true ↔ t = "dark") ∧
    (setTheme t s).icon = (if t = "dark" then "☀️" else "🌙") ∧
    (setTheme t s).stored = some t ∧
    (setTheme t s).log = s.log ++
      [if t = "dark" then Effect.classAdd "dark-mode" else Effect.classRemove "dark-mode",
       Effect.iconSet (if t = "dark" then "☀️" else "🌙"),
       Effect.storeSet "theme" t] ++
      (if s.cbDefined then [Effect.cbInvoke t] else []) ∧
    getTheme (setTheme t s) = t := by
  rcases ht with h | h <;> subst h <;>
    simp [setTheme_darkMode, setTheme_icon, setTheme_stored, setTheme_log, getTheme]

theorem c2_applyTheme_effects_witness :
    ((setTheme "dark" freshTheme).darkMode = true ↔ "dark" = "dark") ∧
    (setTheme "dark" freshTheme).icon =
      (if "dark" = "dark" then "☀️" else "🌙") ∧
    (setTheme "dark" freshTheme).stored = some "dark" ∧
    (setTheme "dark" freshTheme).log = freshTheme.log ++
      [if "dark" = "dark" then Effect.classAdd "dark-mode" else Effect.classRemove "dark-mode",
       Effect.iconSet (if "dark" = "dark" then "☀️" else "🌙"),
       Effect.storeSet "theme" "dark"] ++
      (if freshTheme.cbDefined then [Effect.cbInvoke "dark"] else []) ∧
    getTheme (setTheme "dark" freshTheme) = "dark" :=
  c2_applyTheme_effects "dark" freshTheme (Or.inr rfl)

/-- C3 counterexample: the claim says `getPreferredTheme` always returns a
value of the Theme enumeration.  With the store holding the string
`"solarized"` (reachable through `themeManager.setTheme`, and in general the
per-origin store is not validated), it returns `"solarized"`, which is neither
`"light"` nor `"dark"`. -/
theorem c3_counterexample :
    getPreferredTheme (some "solarized") false = "solarized" ∧
    ¬(getPreferredTheme (some "solarized") false = "light" ∨
      getPreferredTheme (some "solarized") false = "dark") := by
  decide

/-- C3 amended: `getPreferredTheme` returns the stored string whenever a
non-empty one is present (without validating it), falls back to the system
signal when the entry is absent or empty, and returns a Theme value whenever
the stored entry is absent, empty, or itself a Theme value; it is a pure read
(a function of the store and the query only). -/
theorem c3_getPreferredTheme_amended (stored : Option String) (sysDark : Bool) :
    (stored = none →
      getPreferredTheme stored sysDark = (if sysDark then "dark" else "light")) ∧
    (∀ t, stored = some t → t ≠ "" → getPreferredTheme stored sysDark = t) ∧
    (stored = some "" →
      getPreferredTheme stored sysDark = (if sysDark then "dark" else "light")) ∧
    ((stored = none ∨ stored = some "light" ∨ stored = some "dark") →
      (getPreferredTheme stored sysDark = "light" ∨
       getPreferredTheme stored sysDark = "dark")) := by
  refine ⟨?_, ?_, ?_, ?_⟩
  · rintro rfl; simp [getPreferredTheme, truthyItem]
  · rintro t rfl ht; simp [getPreferredTheme, truthyItem, ht]
  · rintro rfl; simp [getPreferredTheme, truthyItem]
  · rintro (rfl | rfl | rfl) <;> simp [getPreferredTheme, truthyItem]

theorem c3_getPreferredTheme_amended_witness :
    getPreferredTheme (some "dark") true = "dark" :=
  (c3_getPreferredTheme_amended (some "dark") true).2.1 "dark" rfl (by decide)

/-- C4 counterexample: the handler's guard is JS falsiness of
`localStorage.getItem('theme')`, not absence of the entry.  After a manual
toggle, an external `themeManager.setTheme("")` call leaves the `theme` entry
present with value `""`; the next system-preference-change event then fires
`setTheme` even though the entry is present, flipping Applied Theme. -/
theorem c4_counterexample :
    (run [Ev.external ""] (toggleTheme freshTheme)).stored = some "" ∧
    (run [Ev.external ""] (toggleTheme freshTheme)).darkMode = false ∧
    (mediaChange true (run [Ev.external ""] (toggleTheme freshTheme))).darkMode
      = true := by
  refine ⟨?_, ?_, ?_⟩ <;> decide

/-- C4 amended: after a manual toggle the stored entry holds `"light"` or
`"dark"` (truthy), every later internally-generated event (clicks and media
changes) keeps it truthy, and a media-change event on a truthy store is a
complete no-op, so Applied Theme is unchanged; the handler invokes `setTheme`
only when the persisted entry is absent or holds the empty string — a value
no toggle or initialization ever writes. -/
theorem c4_manual_override (s : ThemeState) (evs : List Ev) (em : Bool)
    (hint : ∀ e ∈ evs, internalEv e = true) :
    mediaChange em (run evs (toggleTheme s)) = run evs (toggleTheme s) ∧
    (∀ s2 : ThemeState, s2.stored ≠ none → s2.stored ≠ some "" →
      mediaChange em s2 = s2) := by
  constructor
  · exact mediaChange_of_truthy em _
      (run_internal_truthy evs (toggleTheme s) (toggleTheme_stored_truthy s) hint)
  · intro s2 h1 h2
    apply mediaChange_of_truthy
    rcases hs : s2.stored with _ | t
    · exact absurd hs h1
    · rw [hs] at h2
      simp only [truthyItem, bne_iff_ne, ne_eq]
      intro hval
      exact h2 (by rw [hval])

theorem c4_manual_override_witness :
    mediaChange false (run [Ev.click, Ev.media true] (toggleTheme freshTheme)) =
      run [Ev.click, Ev.media true] (toggleTheme freshTheme) :=
  (c4_manual_override freshTheme [Ev.click, Ev.media true] false (by decide)).1

/-- C5: the first half of the claim holds: with the store empty and the system
signal dark, initialization applies dark.  The second half fails on the code:
initialization itself persists `"dark"`, so immediately after initialization
the stored entry is present, the change handler's guard
`!localStorage.getItem('theme')` is false, and a system change to light is
ignored — Applied Theme stays dark instead of following to light.  The state
"initialized but Stored Preference absent" is not reachable. -/
theorem c5_system_change_ignored_after_init :
    (initTheme true freshTheme).darkMode = true ∧
    (initTheme true freshTheme).stored = some "dark" ∧
    mediaChange false (initTheme true freshTheme) = initTheme true freshTheme ∧
    (mediaChange false (initTheme true freshTheme)).darkMode = true := by
  refine ⟨?_, ?_, ?_, ?_⟩ <;> decide

/-- C6: `toggleTheme` applied twice restores the dark-mode marker from any
state; it also restores the icon glyph whenever the icon agrees with the
marker (sun for dark, moon for light) — which holds in every state the
controller produces, since every `setTheme` reestablishes this agreement. -/
theorem c6_toggle_involution (s : ThemeState) :
    (toggleTheme (toggleTheme s)).darkMode = s.darkMode ∧
    (s.icon = (if s.darkMode then "☀️" else "🌙") →
      (toggleTheme (toggleTheme s)).icon = s.icon) ∧
    (∀ t : String, ∀ s2 : ThemeState,
      (setTheme t s2).icon =
        (if (setTheme t s2).darkMode then "☀️" else "🌙")) := by
  refine ⟨?_, ?_, ?_⟩
  · rw [toggleTheme_eq, toggleTheme_eq, setTheme_darkMode, setTheme_darkMode]
    cases s.darkMode <;> simp
  · intro hicon
    rw [toggleTheme_eq, toggleTheme_eq, setTheme_darkMode, setTheme_icon]
    cases h : s.darkMode <;> simp [h] at hicon ⊢ <;> exact hicon.symm
  · intro t s2
    rw [setTheme_darkMode, setTheme_icon]
    by_cases h : t = "dark" <;> simp [h]

theorem c6_toggle_involution_witness :
    (toggleTheme (toggleTheme freshTheme)).icon = freshTheme.icon :=
  (c6_toggle_involution freshTheme).2.1 (by decide)

/-- C7: `setTheme` is idempotent on the observable state: applying it twice
with the same argument leaves the dark-mode marker, the icon glyph and the
persisted `theme` value exactly as after one application (proved for every
string argument, in particular for both Theme values). -/
theorem c7_applyTheme_idempotent (t : String) (s : ThemeState) :
    (setTheme t (setTheme t s)).darkMode = (setTheme t s).darkMode ∧
    (setTheme t (setTheme t s)).icon = (setTheme t s).icon ∧
    (setTheme t (setTheme t s)).stored = (setTheme t s).stored := by
  refine ⟨?_, ?_, ?_⟩ <;>
    simp [setTheme_darkMode, setTheme_icon, setTheme_stored]

/-- C8: when the toggle element or the icon element is missing, the IIFE
changes nothing observable — theme state, listener registrations and the
exposed `themeManager` surface are untouched — and its only action is
appending the console warning; being a total function, it raises no error. -/
theorem c8_missing_elements_no_op (p : PageState) (sysDark : Bool)
    (h : p.hasToggle = false ∨ p.hasIcon = false) :
    (iife sysDark p).theme = p.theme ∧
    (iife sysDark p).clickListenerRegistered = p.clickListenerRegistered ∧
    (iife sysDark p).mediaListenerRegistered = p.mediaListenerRegistered ∧
    (iife sysDark p).themeManagerExposed = p.themeManagerExposed ∧
    (iife sysDark p).warnings = p.warnings ++
      ["Theme toggle button or icon not found. Make sure to include the required HTML elements."] := by
  rcases h with h | h <;> simp [iife, h]

/-- A page whose HTML lacks the toggle button. -/
def noTogglePage : PageState :=
  { hasToggle := false, hasIcon := false, theme := freshTheme, warnings := [],
    clickListenerRegistered := false, mediaListenerRegistered := false,
    themeManagerExposed := false }

theorem c8_missing_elements_no_op_witness :
    (iife true noTogglePage).theme = noTogglePage.theme ∧
    (iife true noTogglePage).clickListenerRegistered = noTogglePage.clickListenerRegistered ∧
    (iife true noTogglePage).mediaListenerRegistered = noTogglePage.mediaListenerRegistered ∧
    (iife true noTogglePage).themeManagerExposed = noTogglePage.themeManagerExposed ∧
    (iife true noTogglePage).warnings = noTogglePage.warnings ++
      ["Theme toggle button or icon not found. Make sure to include the required HTML elements."] :=
  c8_missing_elements_no_op noTogglePage true (Or.inl rfl)

/-- C9: on every `setTheme t` call, when `window.onThemeChange` is a function
it is called exactly once, with `t` as its only argument (one element is
appended to the call list); when it is undefined the call list is unchanged
and the call still completes (the function is total). -/
theorem c9_callback_contract (t : String) (s : ThemeState) :
    (s.cbDefined = true → (setTheme t s).cbCalls = s.cbCalls ++ [t]) ∧
    (s.cbDefined = false → (setTheme t s).cbCalls = s.cbCalls) := by
  constructor <;> intro h <;> simp [setTheme_cbCalls, h]

/-- A theme state with the host callback installed. -/
def cbTheme : ThemeState :=
  { freshTheme with cbDefined := true }

theorem c9_callback_contract_witness :
    (setTheme "dark" cbTheme).cbCalls = cbTheme.cbCalls ++ ["dark"] :=
  (c9_callback_contract "dark" cbTheme).1 rfl

/-- C10 counterexample: the claim says that for every string `t`, after
`setTheme t` a later `getPreferredTheme` returns `t` unchanged.  For
`t = ""` the entry is persisted as `""`, but `getItem` then yields a falsy
value, so `getPreferredTheme` falls back to the system signal (here dark)
instead of returning `""`. -/
theorem c10_counterexample :
    (setTheme "" freshTheme).stored = some "" ∧
    getPreferredTheme (setTheme "" freshTheme).stored true = "dark" ∧
    ¬ getPreferredTheme (setTheme "" freshTheme).stored true = "" := by
  refine ⟨?_, ?_, ?_⟩ <;> decide

/-- C10 amended: `setTheme` is total over arbitrary strings: it persists
exactly `t`, sets the dark-mode marker iff `t = "dark"`, and for any other
`t` shows the moon glyph and makes `getTheme` report `"light"`; a later
`getPreferredTheme` returns the persisted string unchanged provided it is
non-empty (for `t = ""` the falsy item makes it fall back to the system
signal). -/
theorem c10_setTheme_total_amended (t : String) (s : ThemeState) (sysDark : Bool) :
    (setTheme t s).stored = some t ∧
    ((setTheme t s).darkMode = true ↔ t = "dark") ∧
    (t ≠ "dark" →
      (setTheme t s).icon = "🌙" ∧ getTheme (setTheme t s) = "light") ∧
    (t ≠ "" → getPreferredTheme (setTheme t s).stored sysDark = t) := by
  refine ⟨setTheme_stored t s, ?_, ?_, ?_⟩
  · simp [setTheme_darkMode]
  · intro h
    constructor
    · simp [setTheme_icon, h]
    · simp [getTheme, setTheme_darkMode, h]
  · intro h
    rw [setTheme_stored]
    simp [getPreferredTheme, truthyItem, h]

theorem c10_setTheme_total_amended_witness :
    (setTheme "banana" freshTheme).icon = "🌙" ∧
    getTheme (setTheme "banana" freshTheme) = "light" :=
  (c10_setTheme_total_amended "banana" freshTheme true).2.2.1 (by decide)

end ThemeJs
